import Mathlib

/-!
Verification development for the pldmd PLDM daemon.

Shallow embedding of the PLDM protocol engine of the pldmd repository:
the transport mediator (sendReceivePldmMessage, sendPldmMessage,
reserveBandwidth/releaseBandwidth from src/state_effecter_handler.cpp),
the PDR retrieval pipeline (handleGetPDRResp, getDevicePDRRecord,
getDevicePDRRepo from src/pdr_manager.cpp), the entity-association
tree construction (getContainedNode, insertToAssociationTree,
extractRootNode, createEntityAssociationTree from src/pdr_manager.cpp),
the state-sensor engine (incrementError, markFunctional, updateState,
logStateChangeEvent from src/state_sensor_handler.cpp), and the
firmware-update engine helpers (setTransferFlag, validateReqForFWUpdCmd
from src/state_effecter_handler.cpp).

Machine integers are modelled as Nat with explicit reductions modulo
2^8 where byte overflow matters.  Byte buffers are List Nat.  Code that
performs I/O through the MCTP transport is modelled with explicit
oracle parameters supplying the transport's answers.
-/

namespace Pldmd

/-- MCTP message type tag for PLDM.  Modelled from the spec: each PLDM
payload is prefixed with a one-byte MCTP message-type tag = PLDM (value
0x01 per MCTP, defined in mctp_wrapper.hpp which is not under src/). -/
def mctpTypePLDM : Nat := 0x01

/-- Sentinel for an invalid state reading.  Modelled from the spec: the
INVALID state value (PLDM_INVALID_VALUE, defined in a header that is not
under src/). -/
def PLDM_INVALID_VALUE : Nat := 0xFF

/-- Transfer flag values of DSP0240 multipart transfers (PLDM_START etc.,
declared in libpldm base.h which is not under src/). -/
def PLDM_START : Nat := 0x01

/-- Transfer flag MIDDLE. -/
def PLDM_MIDDLE : Nat := 0x02

/-- Transfer flag END. -/
def PLDM_END : Nat := 0x04

/-- Transfer flag START_AND_END. -/
def PLDM_START_AND_END : Nat := 0x05

/-- Firmware update command RequestFirmwareData (DSP0267 command values,
declared in libpldm firmware_update.h which is not under src/). -/
def PLDM_REQUEST_FIRMWARE_DATA : Nat := 0x15

/-- Firmware update command TransferComplete. -/
def PLDM_TRANSFER_COMPLETE : Nat := 0x16

/-- Size of the PLDM message header pldm_msg_hdr in bytes: instance-id
byte, type byte, command byte.  Modelled from the spec description of the
PLDM header (the struct lives in libpldm base.h, not under src/). -/
def hdrSize : Nat := 3

/-- Invalid TID sentinel (pldmInvalidTid, declared in pldm.hpp which is
not under src/). -/
def pldmInvalidTid : Nat := 0xFF

/-- Invalid PLDM type sentinel (pldmInvalidType, declared in pldm.hpp
which is not under src/). -/
def pldmInvalidType : Nat := 0xFF

/-!
## Firmware update: transfer flag selection

Embeds `FWUpdate::setTransferFlag` from src/state_effecter_handler.cpp.
-/

/-- Direct embedding of FWUpdate::setTransferFlag.  The source assigns
PLDM_START / PLDM_MIDDLE when offset+length < dataSize (depending on
offset == 0) and PLDM_START_AND_END / PLDM_END otherwise. -/
def setTransferFlag (offset length dataSize : Nat) : Nat :=
  if offset + length < dataSize then
    if offset = 0 then PLDM_START else PLDM_MIDDLE
  else
    if offset = 0 then PLDM_START_AND_END else PLDM_END

/-- C8: for every outgoing data chunk with dataSize > 0, setTransferFlag
returns START when offset = 0 and offset+length < dataSize, MIDDLE when
offset > 0 and offset+length < dataSize, START_AND_END when offset = 0
and offset+length >= dataSize, and END when offset > 0 and
offset+length >= dataSize. -/
theorem c8_transfer_flag_table (offset length dataSize : Nat)
    (hpos : 0 < dataSize) :
    (offset = 0 → offset + length < dataSize →
      setTransferFlag offset length dataSize = PLDM_START) ∧
    (0 < offset → offset + length < dataSize →
      setTransferFlag offset length dataSize = PLDM_MIDDLE) ∧
    (offset = 0 → dataSize ≤ offset + length →
      setTransferFlag offset length dataSize = PLDM_START_AND_END) ∧
    (0 < offset → dataSize ≤ offset + length →
      setTransferFlag offset length dataSize = PLDM_END) := by
  refine ⟨?_, ?_, ?_, ?_⟩ <;> intro h1 h2 <;>
    simp [setTransferFlag, h1, Nat.not_lt.mpr, *] <;> omega

/-- Witness for C8 at concrete inputs: dataSize = 10, offset = 0,
length = 4 yields START. -/
theorem c8_transfer_flag_table_witness :
    0 < 10 ∧ (0 = 0 → 0 + 4 < 10 →
      setTransferFlag 0 4 10 = PLDM_START) :=
  ⟨by decide, (c8_transfer_flag_table 0 4 10 (by decide)).1⟩

/-!
## Transport mediator

Embeds the reserve-bandwidth interlock and sendReceivePldmMessage /
sendPldmMessage from src/state_effecter_handler.cpp.  The MCTP wrapper
is abstracted by oracles: `eidOk` stands for a successful
tidMapper.getMappedEID lookup, and a response oracle
`List (Option (List Nat))` supplies one transport outcome per attempt
(`none` models no response within the timeout window).
-/

/-- Global reserve-bandwidth state: the static variables rsvBWActive,
reservedTID and reservedPLDMType of src/state_effecter_handler.cpp. -/
structure BWState where
  rsvBWActive : Bool
  reservedTID : Nat
  reservedPLDMType : Nat
  deriving DecidableEq, Repr

/-- Direct embedding of validateReserveBW: the send is blocked iff a
reservation is active and the caller pair differs from the holder. -/
def validateReserveBW (s : BWState) (tid pldmType : Nat) : Bool :=
  s.rsvBWActive && !(tid = s.reservedTID ∧ pldmType = s.reservedPLDMType)

/-- Direct embedding of releaseBandwidth.  `eidOk` models the
tidMapper.getMappedEID lookup and `relOk` the mctpWrapper
releaseBandwidth call (false models a negative return).  Returns the
success flag and the new reservation state. -/
def releaseBandwidth (s : BWState) (tid pldmType : Nat)
    (eidOk relOk : Bool) : Bool × BWState :=
  if s.rsvBWActive = false then (false, s)
  else if tid ≠ s.reservedTID ∨ pldmType ≠ s.reservedPLDMType then (false, s)
  else if eidOk = false then (false, s)
  else if relOk = false then (false, s)
  else (true, ⟨false, pldmInvalidTid, pldmInvalidType⟩)

/-- PLDM type field of a request buffer: low six bits of the second
header byte (pldm_msg_hdr field `type`, read through the
reinterpret_cast in sendReceivePldmMessage). -/
def pldmTypeOf (msg : List Nat) : Nat := msg.getD 1 0 % 64

/-- Direct embedding of getInstanceId: low five bits of the first byte
(PLDM_INSTANCE_ID_MASK = 0x1F), none on an empty buffer. -/
def getInstanceId (msg : List Nat) : Option Nat :=
  if msg.isEmpty then none else some (msg.getD 0 0 % 32)

/-- Direct embedding of getPldmPacketType: the rq/D value is taken from
byte 0 of the buffer it is handed (bits 7:6, PLDM_RQ_D_MASK = 0xC0 and
PLDM_RQ_D_SHIFT = 6 per the spec's PLDM header layout; the constants
live in pldm.hpp which is not under src/).  none on an empty buffer. -/
def getPldmPacketType (msg : List Nat) : Option Nat :=
  if msg.isEmpty then none else some (msg.getD 0 0 % 256 / 64)

/-- MessageType value PLDM_RESPONSE (rq = 0, d = 0). -/
def PLDM_RESPONSE : Nat := 0

/-- Retry loop of sendReceivePldmMessage.  One recursive step per loop
iteration; `first` tracks `retry == 0` (the MCTP type byte is inserted
only there), `oracle` yields the transport outcome of each attempt and
`sent` accumulates every buffer handed to the transport.  Mirrors the
source exactly, including the erase of the MCTP type byte from both the
local request and the response once the response is seen to be typed
PLDM. -/
def sendReceiveLoop (eidOk : Bool) :
    Nat → Bool → List (Option (List Nat)) → List Nat →
    List (List Nat) → Bool × List Nat × List (List Nat)
  | 0, _, _, _, sent => (false, [], sent)
  | remaining + 1, first, oracle, req, sent =>
    if eidOk = false then (false, [], sent)
    else
      let req1 := if first then mctpTypePLDM :: req else req
      let sent1 := sent ++ [req1]
      match oracle with
      | [] => sendReceiveLoop eidOk remaining false [] req1 sent1
      | none :: rest => sendReceiveLoop eidOk remaining false rest req1 sent1
      | some resp :: rest =>
        if resp.length < 4 then
          sendReceiveLoop eidOk remaining false rest req1 sent1
        else if getPldmPacketType resp ≠ some PLDM_RESPONSE then
          sendReceiveLoop eidOk remaining false rest req1 sent1
        else if resp.getD 0 0 = mctpTypePLDM then
          let resp1 := resp.tail
          let req2 := req1.tail
          if getInstanceId req2 = getInstanceId resp1 ∧
              (getInstanceId req2).isSome then
            (true, resp1, sent1)
          else sendReceiveLoop eidOk remaining false rest req2 sent1
        else sendReceiveLoop eidOk remaining false rest req1 sent1

/-- Direct embedding of sendReceivePldmMessage.  Returns the success
flag, the response handed back to the caller, and the list of buffers
handed to the transport. -/
def sendReceivePldmMessage (bw : BWState) (eidOk : Bool) (tid : Nat)
    (retryCount : Nat) (pldmReq : List Nat)
    (oracle : List (Option (List Nat))) :
    Bool × List Nat × List (List Nat) :=
  if validateReserveBW bw tid (pldmTypeOf pldmReq) then (false, [], [])
  else sendReceiveLoop eidOk (min retryCount 5) true oracle pldmReq []

/-- Retry loop of sendPldmMessage: each attempt sends the same payload,
`oracle` lists the per-attempt transport outcomes (true = accepted).
With zero remaining attempts the source's default-initialized result
reports success without a send. -/
def sendOnewayLoop : Nat → List Bool → List Nat →
    List (List Nat) → Bool × List (List Nat)
  | 0, _, _, sent => (true, sent)
  | remaining + 1, oracle, payload, sent =>
    let sent1 := sent ++ [payload]
    match oracle with
    | [] => sendOnewayLoop remaining [] payload sent1
    | ok :: rest =>
      if ok then (true, sent1) else sendOnewayLoop remaining rest payload sent1

/-- Direct embedding of sendPldmMessage (one-way send): the reserve
bandwidth check, the EID lookup, the unconditional MCTP type byte
insertion, then the bounded retry loop. -/
def sendPldmMessage (bw : BWState) (eidOk : Bool) (tid : Nat)
    (retryCount : Nat) (payload : List Nat) (oracle : List Bool) :
    Bool × List (List Nat) :=
  if validateReserveBW bw tid (pldmTypeOf payload) then (false, [])
  else if eidOk = false then (false, [])
  else sendOnewayLoop (min retryCount 5) oracle (mctpTypePLDM :: payload) []

/-- C2: while a reservation is held by pair A,T, every send_receive and
every one-way send for a different pair fails immediately with no buffer
handed to the transport; a release invoked with any pair other than the
holder returns an error and leaves the reservation unchanged; and a
successful release implies it was invoked with exactly the holder
pair. -/
theorem c2_reserve_bandwidth_interlock (bw : BWState) (tid pldmType : Nat)
    (hact : bw.rsvBWActive = true)
    (hdiff : ¬(tid = bw.reservedTID ∧ pldmType = bw.reservedPLDMType)) :
    (∀ eidOk retryCount req oracle, pldmTypeOf req = pldmType →
      sendReceivePldmMessage bw eidOk tid retryCount req oracle =
        (false, [], [])) ∧
    (∀ eidOk retryCount payload oracle, pldmTypeOf payload = pldmType →
      sendPldmMessage bw eidOk tid retryCount payload oracle = (false, [])) ∧
    (∀ eidOk relOk, releaseBandwidth bw tid pldmType eidOk relOk =
      (false, bw)) ∧
    (∀ tid2 type2 eidOk relOk,
      (releaseBandwidth bw tid2 type2 eidOk relOk).1 = true →
      tid2 = bw.reservedTID ∧ type2 = bw.reservedPLDMType) := by
  have hval : validateReserveBW bw tid pldmType = true := by
    simp [validateReserveBW, hact, hdiff]
  refine ⟨?_, ?_, ?_, ?_⟩
  · intro eidOk retryCount req oracle htype
    simp [sendReceivePldmMessage, htype, hval]
  · intro eidOk retryCount payload oracle htype
    simp [sendPldmMessage, htype, hval]
  · intro eidOk relOk
    have : tid ≠ bw.reservedTID ∨ pldmType ≠ bw.reservedPLDMType := by
      by_contra hc
      push_neg at hc
      exact hdiff ⟨hc.1, hc.2⟩
    simp [releaseBandwidth, hact, this]
  · intro tid2 type2 eidOk relOk hrel
    by_contra hc
    have : tid2 ≠ bw.reservedTID ∨ type2 ≠ bw.reservedPLDMType := by
      by_contra hcc
      push_neg at hcc
      exact hc ⟨hcc.1, hcc.2⟩
    simp [releaseBandwidth, hact, this] at hrel

/-- Witness for C2: reservation held by pair (tid 1, type 5), caller pair
(tid 2, type 5) is rejected with no transport send. -/
theorem c2_reserve_bandwidth_interlock_witness :
    (⟨true, 1, 5⟩ : BWState).rsvBWActive = true ∧
    ¬((2 : Nat) = 1 ∧ (5 : Nat) = 5) ∧
    sendReceivePldmMessage ⟨true, 1, 5⟩ true 2 3 [10, 5, 1] [] =
      (false, [], []) :=
  ⟨rfl, by decide,
    (c2_reserve_bandwidth_interlock ⟨true, 1, 5⟩ 2 5 rfl (by decide)).1
      true 3 [10, 5, 1] [] (by decide)⟩

/-- C3 (code bug): the rq/D retry condition is evaluated on the MCTP
message-type byte rather than on the PLDM header.  With the oracle
returning the PLDM-typed packet 0x01 0x8A 0x05 0x01 — whose PLDM header
byte 0x8A has the rq bit set, so its rq/D value is PLDM_REQUEST, not a
response — and whose instance id (0x0A) matches the request, the code
returns the packet to the caller on the first attempt instead of
retrying, because getPldmPacketType is applied to the buffer whose
byte 0 is the MCTP tag 0x01 (rq/D bits 00).  The source's own comment
states retry condition 3 as "If response bit is not set in PLDM
header". -/
theorem c3_rqd_check_on_wrong_byte :
    sendReceivePldmMessage ⟨false, 255, 255⟩ true 1 3 [10, 5, 1]
        [some [1, 138, 5, 1]] =
      (true, [138, 5, 1], [[1, 10, 5, 1]]) ∧
    getPldmPacketType [138, 5, 1] ≠ some PLDM_RESPONSE := by
  constructor
  · rfl
  · decide

/-- C4 (code bug): after a PLDM-typed response with a mismatched
instance id, the code erases the MCTP type byte from its local request
copy and never re-inserts it (the insertion is guarded by retry == 0),
so the second attempt hands the transport a buffer whose first byte is
the PLDM header byte 0x0A, not the MCTP PLDM tag.  The first response
0x01 0x0B 0x05 0x01 is typed PLDM but carries instance id 0x0B against
the request's 0x0A. -/
theorem c4_retry_loses_mctp_tag :
    sendReceivePldmMessage ⟨false, 255, 255⟩ true 1 2 [10, 5, 1]
        [some [1, 11, 5, 1]] =
      (false, [], [[1, 10, 5, 1], [10, 5, 1]]) ∧
    ([10, 5, 1].headD 0 ≠ mctpTypePLDM) := by
  constructor
  · rfl
  · decide

/-!
## Firmware update: incoming request validation

Embeds `FWUpdate::validateReqForFWUpdCmd` from
src/state_effecter_handler.cpp.  The expectedCommandTimer cancel is
modelled by the `timerCancelled` flag.
-/

/-- Mutable FWUpdate session fields touched by validateReqForFWUpdCmd. -/
structure FWUpdateSession where
  currentTid : Nat
  expectedCmd : Nat
  fdTransferCompleted : Bool
  msgTag : Nat
  fdReqMatched : Bool
  fdReq : List Nat
  timerCancelled : Bool
  deriving DecidableEq, Repr

/-- Direct embedding of FWUpdate::validateReqForFWUpdCmd.  A request
shorter than the PLDM header is dropped; a TransferComplete arriving
while RequestFirmwareData is expected switches the expected command and
marks the transfer completed before the TID comparison; the request is
stored (and the idle timer cancelled) only when the sender TID matches
the session TID and the command matches the possibly switched expected
command. -/
def validateReqForFWUpdCmd (s : FWUpdateSession) (tid messageTag : Nat)
    (req : List Nat) : FWUpdateSession :=
  if req.length < hdrSize then s
  else if s.expectedCmd = PLDM_REQUEST_FIRMWARE_DATA ∧
      req.getD 2 0 = PLDM_TRANSFER_COMPLETE then
    let s1 : FWUpdateSession :=
      { s with expectedCmd := PLDM_TRANSFER_COMPLETE,
               fdTransferCompleted := true }
    if tid ≠ s1.currentTid ∨ req.getD 2 0 ≠ s1.expectedCmd then s1
    else
      { s1 with msgTag := messageTag, fdReqMatched := true, fdReq := req,
                timerCancelled := true }
  else
    if tid ≠ s.currentTid ∨ req.getD 2 0 ≠ s.expectedCmd then s
    else
      { s with msgTag := messageTag, fdReqMatched := true, fdReq := req,
               timerCancelled := true }

/-- C9: (a) a TransferComplete arriving while RequestFirmwareData is
expected switches the expected command and marks the transfer
completed, for every sender TID; (b) starting from a session with no
matched request and no cancelled timer, the request is stored and the
timer cancelled exactly when the sender TID equals the session TID and
the command equals the possibly switched expected command (and the
request is at least a full header); (c) a request that neither triggers
the switch nor matches is dropped with the session unchanged. -/
theorem c9_fw_request_validation (s : FWUpdateSession)
    (tid messageTag : Nat) (req : List Nat)
    (hm : s.fdReqMatched = false) (ht : s.timerCancelled = false) :
    (hdrSize ≤ req.length → s.expectedCmd = PLDM_REQUEST_FIRMWARE_DATA →
      req.getD 2 0 = PLDM_TRANSFER_COMPLETE →
      (validateReqForFWUpdCmd s tid messageTag req).expectedCmd =
        PLDM_TRANSFER_COMPLETE ∧
      (validateReqForFWUpdCmd s tid messageTag req).fdTransferCompleted =
        true) ∧
    ((validateReqForFWUpdCmd s tid messageTag req).fdReqMatched = true ↔
      hdrSize ≤ req.length ∧ tid = s.currentTid ∧
      req.getD 2 0 =
        (if s.expectedCmd = PLDM_REQUEST_FIRMWARE_DATA ∧
            req.getD 2 0 = PLDM_TRANSFER_COMPLETE
         then PLDM_TRANSFER_COMPLETE else s.expectedCmd)) ∧
    ((validateReqForFWUpdCmd s tid messageTag req).fdReqMatched = true →
      (validateReqForFWUpdCmd s tid messageTag req).fdReq = req ∧
      (validateReqForFWUpdCmd s tid messageTag req).timerCancelled = true) ∧
    (hdrSize ≤ req.length →
      ¬(s.expectedCmd = PLDM_REQUEST_FIRMWARE_DATA ∧
        req.getD 2 0 = PLDM_TRANSFER_COMPLETE) →
      ¬(tid = s.currentTid ∧ req.getD 2 0 = s.expectedCmd) →
      validateReqForFWUpdCmd s tid messageTag req = s) ∧
    (req.length < hdrSize → validateReqForFWUpdCmd s tid messageTag req = s) := by
  simp only [validateReqForFWUpdCmd]
  split_ifs with hA hB hC hD <;>
    refine ⟨?_, ?_, ?_, ?_, ?_⟩ <;>
    simp_all <;>
    omega

/-- Witness for C9: a TransferComplete (command 0x16) arriving from a
different TID (9) while the session for TID 1 expects
RequestFirmwareData switches the expected command. -/
theorem c9_fw_request_validation_witness :
    (⟨1, 0x15, false, 0, false, [], false⟩ :
        FWUpdateSession).fdReqMatched = false ∧
    ((validateReqForFWUpdCmd ⟨1, 0x15, false, 0, false, [], false⟩ 9 0
        [0, 5, 0x16]).expectedCmd = PLDM_TRANSFER_COMPLETE ∧
      (validateReqForFWUpdCmd ⟨1, 0x15, false, 0, false, [], false⟩ 9 0
        [0, 5, 0x16]).fdTransferCompleted = true) :=
  ⟨rfl,
    (c9_fw_request_validation ⟨1, 0x15, false, 0, false, [], false⟩ 9 0
        [0, 5, 0x16] rfl rfl).1 (by decide) rfl rfl⟩

/-!
## State sensor engine

Embeds StateSensorHandler::markFunctional, markAvailable,
initializeInterface, logStateChangeEvent, updateState and
incrementError from src/state_sensor_handler.cpp.  D-Bus properties are
modelled as plain fields; the pre-initialization caches
(currentStateReading etc.) and the initialized flag follow the source.
The stateSetMap table lives in state_set.hpp (not under src/) and is
modelled as an association list parameter.
-/

/-- Error threshold of the state sensor debounce (errorThreshold = 3 in
src/state_sensor_handler.cpp). -/
def errorThreshold : Nat := 3

/-- Readable information for one state-set value: the redfish message id
and the human-readable state name (StateSetValueInfo). -/
structure StateSetValueInfo where
  redfishMessageID : String
  stateSetValueName : String
  deriving DecidableEq, Repr

/-- The stateSetMap table: state-set id to state-set name and per-value
info. -/
def StateSetMap := List (Nat × String × List (Nat × StateSetValueInfo))

/-- Lookup of a state-set id in the stateSetMap. -/
def findStateSet (m : StateSetMap) (ssid : Nat) :
    Option (String × List (Nat × StateSetValueInfo)) :=
  (m.find? (fun e => e.1 = ssid)).map (·.2)

/-- Lookup of a state value inside one state set. -/
def findStateValue (vals : List (Nat × StateSetValueInfo)) (v : Nat) :
    Option StateSetValueInfo :=
  (vals.find? (fun e => e.1 = v)).map (·.2)

/-- A structured state-change event as assembled by
logStateChangeEvent: the state-set name, the sensor name and the
human-readable previous and current state names, plus the redfish
message id of the current state. -/
structure StateChangeEvent where
  stateSetName : String
  sensorName : String
  previousName : String
  currentName : String
  messageID : String
  deriving DecidableEq, Repr

/-- Mutable state of one StateSensorHandler: the error counter, the
initialization flag, the cached readings registered at first
initialization, the published D-Bus properties, and the log of emitted
state-change events. -/
structure SensorModel where
  errCount : Nat
  interfaceInitialized : Bool
  currentStateReading : Nat
  previousStateReading : Nat
  isFuntionalReading : Bool
  isAvailableReading : Bool
  dbusCurrentState : Nat
  dbusPreviousState : Nat
  dbusFunctional : Bool
  dbusAvailable : Bool
  events : List StateChangeEvent
  deriving DecidableEq, Repr

/-- Direct embedding of StateSensorHandler::logStateChangeEvent: the
state set, the current state value and the previous state value must
all resolve in stateSetMap, otherwise nothing is logged. -/
def logStateChangeEvent (m : StateSetMap) (ssid : Nat) (name : String)
    (s : SensorModel) (currentState previousState : Nat) : SensorModel :=
  match findStateSet m ssid with
  | none => s
  | some (setName, vals) =>
    match findStateValue vals currentState with
    | none => s
    | some currentInfo =>
      match findStateValue vals previousState with
      | none => s
      | some previousInfo =>
        { s with events := s.events ++
            [⟨setName, name, previousInfo.stateSetValueName,
              currentInfo.stateSetValueName,
              "OpenBMC.0.1." ++ currentInfo.redfishMessageID⟩] }

/-- Direct embedding of StateSensorHandler::markFunctional: before
initialization only the cached reading is set; afterwards the D-Bus
property; a functional mark resets the error counter. -/
def markFunctional (s : SensorModel) (isFunctional : Bool) : SensorModel :=
  let s1 :=
    if s.interfaceInitialized = false then
      { s with isFuntionalReading := isFunctional }
    else
      { s with dbusFunctional := isFunctional }
  if isFunctional then { s1 with errCount := 0 } else s1

/-- Direct embedding of StateSensorHandler::markAvailable. -/
def markAvailable (s : SensorModel) (isAvailable : Bool) : SensorModel :=
  if s.interfaceInitialized = false then
    { s with isAvailableReading := isAvailable }
  else
    { s with dbusAvailable := isAvailable }

/-- Direct embedding of StateSensorHandler::initializeInterface: on the
first call the cached readings become the published properties. -/
def initializeInterface (s : SensorModel) : SensorModel :=
  if s.interfaceInitialized = false then
    { s with dbusCurrentState := s.currentStateReading,
             dbusPreviousState := s.previousStateReading,
             dbusFunctional := s.isFuntionalReading,
             dbusAvailable := s.isAvailableReading,
             interfaceInitialized := true }
  else s

/-- Direct embedding of StateSensorHandler::updateState.  After the
first initialization, a state-change event is attempted exactly when
the current state differs from the last published current state and is
not INVALID, or the previous state differs from the last published
previous state and is not INVALID; the event is logged before the
published readings are overwritten. -/
def updateState (m : StateSetMap) (ssid : Nat) (name : String)
    (s : SensorModel) (currentState previousState : Nat)
    (isAvailable isFunctional : Bool) : SensorModel :=
  let s1 :=
    if s.interfaceInitialized = false then
      { s with currentStateReading := currentState,
               previousStateReading := previousState }
    else
      let s0 :=
        if (s.currentStateReading ≠ currentState ∧
            currentState ≠ PLDM_INVALID_VALUE) ∨
           (s.previousStateReading ≠ previousState ∧
            previousState ≠ PLDM_INVALID_VALUE) then
          logStateChangeEvent m ssid name s currentState previousState
        else s
      { s0 with dbusCurrentState := currentState,
                dbusPreviousState := previousState,
                currentStateReading := currentState,
                previousStateReading := previousState }
  initializeInterface (markFunctional (markAvailable s1 isAvailable)
    isFunctional)

/-- Direct embedding of StateSensorHandler::incrementError: saturates at
errorThreshold; exactly on reaching the threshold the sensor is
published non-functional with INVALID readings. -/
def incrementError (m : StateSetMap) (ssid : Nat) (name : String)
    (s : SensorModel) : SensorModel :=
  if errorThreshold ≤ s.errCount then s
  else
    let s1 := { s with errCount := s.errCount + 1 }
    if s1.errCount = errorThreshold then
      updateState m ssid name s1 PLDM_INVALID_VALUE PLDM_INVALID_VALUE
        true false
    else s1

/-- initializeInterface never touches the error counter. -/
theorem errCount_initializeInterface (s : SensorModel) :
    (initializeInterface s).errCount = s.errCount := by
  unfold initializeInterface
  split_ifs <;> rfl

/-- A functional mark resets the error counter. -/
theorem errCount_markFunctional_true (s : SensorModel) :
    (markFunctional s true).errCount = 0 := by
  unfold markFunctional
  split_ifs <;> simp_all

/-- C6: from a zero error count on an initialized sensor, the first two
failed polls only advance the counter and leave everything published
unchanged, the third failure performs the single transition to
non-functional with INVALID published readings, any further failure
leaves the counter and the published state untouched, and any poll that
publishes a functional reading resets the counter to zero. -/
theorem c6_sensor_debounce (m : StateSetMap) (ssid : Nat) (name : String)
    (s : SensorModel) (hinit : s.interfaceInitialized = true)
    (h0 : s.errCount = 0) :
    incrementError m ssid name s = { s with errCount := 1 } ∧
    incrementError m ssid name (incrementError m ssid name s) =
      { s with errCount := 2 } ∧
    incrementError m ssid name (incrementError m ssid name
        (incrementError m ssid name s)) =
      { s with errCount := 3,
               currentStateReading := PLDM_INVALID_VALUE,
               previousStateReading := PLDM_INVALID_VALUE,
               dbusCurrentState := PLDM_INVALID_VALUE,
               dbusPreviousState := PLDM_INVALID_VALUE,
               dbusAvailable := true,
               dbusFunctional := false } ∧
    incrementError m ssid name (incrementError m ssid name
        (incrementError m ssid name (incrementError m ssid name s))) =
      incrementError m ssid name (incrementError m ssid name
        (incrementError m ssid name s)) ∧
    (∀ (s2 : SensorModel) (curr prev : Nat),
      (updateState m ssid name s2 curr prev true true).errCount = 0) := by
  refine ⟨?_, ?_, ?_, ?_, ?_⟩
  · simp [incrementError, errorThreshold, h0]
  · simp [incrementError, errorThreshold, h0]
  · simp [incrementError, errorThreshold, h0, updateState, hinit,
      PLDM_INVALID_VALUE, markAvailable, markFunctional,
      initializeInterface]
  · simp [incrementError, errorThreshold, h0, updateState, hinit,
      PLDM_INVALID_VALUE, markAvailable, markFunctional,
      initializeInterface]
  · intro s2 curr prev
    simp [updateState, errCount_initializeInterface,
      errCount_markFunctional_true]

/-- Witness for C6 at a concrete initialized sensor state with a zero
error count. -/
theorem c6_sensor_debounce_witness :
    (⟨0, true, 1, 1, true, true, 1, 1, true, true, []⟩ :
        SensorModel).interfaceInitialized = true ∧
    incrementError [] 0 "s"
        ⟨0, true, 1, 1, true, true, 1, 1, true, true, []⟩ =
      ⟨1, true, 1, 1, true, true, 1, 1, true, true, []⟩ :=
  ⟨rfl,
    (c6_sensor_debounce [] 0 "s"
      ⟨0, true, 1, 1, true, true, 1, 1, true, true, []⟩ rfl rfl).1⟩

/-- The three post-update calls of updateState never touch the event
log. -/
theorem events_after_marks (s : SensorModel) (a f : Bool) :
    (initializeInterface (markFunctional (markAvailable s a) f)).events =
      s.events := by
  unfold initializeInterface markFunctional markAvailable
  split_ifs <;> rfl

/-- markAvailable never changes the initialization flag. -/
theorem markAvailable_interfaceInitialized (s : SensorModel) (b : Bool) :
    (markAvailable s b).interfaceInitialized = s.interfaceInitialized := by
  unfold markAvailable
  split_ifs <;> rfl

/-- markFunctional never changes the initialization flag. -/
theorem markFunctional_interfaceInitialized (s : SensorModel) (b : Bool) :
    (markFunctional s b).interfaceInitialized = s.interfaceInitialized := by
  unfold markFunctional
  split_ifs <;> rfl

/-- markAvailable never changes the published current state. -/
theorem markAvailable_dbusCurrentState (s : SensorModel) (b : Bool) :
    (markAvailable s b).dbusCurrentState = s.dbusCurrentState := by
  unfold markAvailable
  split_ifs <;> rfl

/-- markFunctional never changes the published current state. -/
theorem markFunctional_dbusCurrentState (s : SensorModel) (b : Bool) :
    (markFunctional s b).dbusCurrentState = s.dbusCurrentState := by
  unfold markFunctional
  split_ifs <;> rfl

/-- markAvailable never changes the published previous state. -/
theorem markAvailable_dbusPreviousState (s : SensorModel) (b : Bool) :
    (markAvailable s b).dbusPreviousState = s.dbusPreviousState := by
  unfold markAvailable
  split_ifs <;> rfl

/-- markFunctional never changes the published previous state. -/
theorem markFunctional_dbusPreviousState (s : SensorModel) (b : Bool) :
    (markFunctional s b).dbusPreviousState = s.dbusPreviousState := by
  unfold markFunctional
  split_ifs <;> rfl

/-- On an already initialized sensor initializeInterface is the
identity. -/
theorem initializeInterface_of_initialized (s : SensorModel)
    (h : s.interfaceInitialized = true) : initializeInterface s = s := by
  unfold initializeInterface
  rw [h]
  simp

/-- logStateChangeEvent never changes the initialization flag. -/
theorem logStateChangeEvent_interfaceInitialized (m : StateSetMap)
    (ssid : Nat) (name : String) (s : SensorModel) (c p : Nat) :
    (logStateChangeEvent m ssid name s c p).interfaceInitialized =
      s.interfaceInitialized := by
  unfold logStateChangeEvent
  rcases hss : findStateSet m ssid with _ | ⟨sn, vals⟩
  · simp [hss]
  · rcases hcv : findStateValue vals c with _ | ci
    · simp [hss, hcv]
    · rcases hpv : findStateValue vals p with _ | pi
      · simp [hss, hcv, hpv]
      · simp [hss, hcv, hpv]

/-- Event list predicted by the amended C7: an event is emitted exactly
when the present state differs from the last published current state
and is valid, or the previous state differs from the last published
previous state and is valid — the guard reads the pre-update published
readings — and additionally the state set and both state values resolve
to known names.  Definition written from the amended claim's words, to
be compared against the embedded updateState. -/
def amendedEmittedEvents (m : StateSetMap) (ssid : Nat) (name : String)
    (lastCurr lastPrev curr prev : Nat) : List StateChangeEvent :=
  if (lastCurr ≠ curr ∧ curr ≠ PLDM_INVALID_VALUE) ∨
      (lastPrev ≠ prev ∧ prev ≠ PLDM_INVALID_VALUE) then
    match findStateSet m ssid with
    | none => []
    | some (setName, vals) =>
      match findStateValue vals curr, findStateValue vals prev with
      | some currentInfo, some previousInfo =>
        [⟨setName, name, previousInfo.stateSetValueName,
          currentInfo.stateSetValueName,
          "OpenBMC.0.1." ++ currentInfo.redfishMessageID⟩]
      | _, _ => []
  else []

/-- C7 counterexample: published readings are current = 1, previous = 1;
the new reading is current = 2, previous = 1, both valid and resolvable
in the state-set table.  The code emits a state-change event (the
current state changed), but the claim's condition — both states valid
AND both different from the last published values — is false because the
previous state is unchanged, so "emitted exactly when" fails. -/
theorem c7_claim_counterexample :
    ¬(((updateState
          [(1, ("Health", [(1, ⟨"StateOne", "One"⟩),
                           (2, ⟨"StateTwo", "Two"⟩)]))] 1 "sen"
          ⟨0, true, 1, 1, true, true, 1, 1, true, true, []⟩
          2 1 true true).events ≠ []) ↔
      ((2 : Nat) ≠ PLDM_INVALID_VALUE ∧ (1 : Nat) ≠ PLDM_INVALID_VALUE ∧
       (2 : Nat) ≠ 1 ∧ (1 : Nat) ≠ 1)) := by
  decide

/-- C7 amended: after the first publication, updateState appends exactly
the events predicted by amendedEmittedEvents — one event iff (current
changed and valid) or (previous changed and valid), compared against the
pre-update published readings, with the state set and both state names
resolvable — and then overwrites the published readings with the new
states. -/
theorem c7_state_change_event_amended (m : StateSetMap) (ssid : Nat)
    (name : String) (s : SensorModel) (curr prev : Nat)
    (avail func : Bool) (hinit : s.interfaceInitialized = true) :
    (updateState m ssid name s curr prev avail func).events =
      s.events ++ amendedEmittedEvents m ssid name
        s.currentStateReading s.previousStateReading curr prev ∧
    (updateState m ssid name s curr prev avail func).dbusCurrentState =
      curr ∧
    (updateState m ssid name s curr prev avail func).dbusPreviousState =
      prev := by
  unfold updateState
  rw [hinit]
  simp only [Bool.true_eq_false, if_false]
  constructor
  · rw [events_after_marks]
    unfold amendedEmittedEvents logStateChangeEvent
    split_ifs with hguard
    · rcases hss : findStateSet m ssid with _ | ⟨setName, vals⟩
      · simp [hss]
      · rcases hcv : findStateValue vals curr with _ | ci
        · simp [hss, hcv]
        · rcases hpv : findStateValue vals prev with _ | pi
          · simp [hss, hcv, hpv]
          · simp [hss, hcv, hpv]
    · simp
  · have hflag : (if (s.currentStateReading ≠ curr ∧
        curr ≠ PLDM_INVALID_VALUE) ∨ (s.previousStateReading ≠ prev ∧
        prev ≠ PLDM_INVALID_VALUE) then
          logStateChangeEvent m ssid name s curr prev
        else s).interfaceInitialized = true := by
      split_ifs
      · rw [logStateChangeEvent_interfaceInitialized]; exact hinit
      · exact hinit
    constructor
    · rw [initializeInterface_of_initialized, markFunctional_dbusCurrentState,
        markAvailable_dbusCurrentState]
      rw [markFunctional_interfaceInitialized,
        markAvailable_interfaceInitialized]
      exact hflag
    · rw [initializeInterface_of_initialized, markFunctional_dbusPreviousState,
        markAvailable_dbusPreviousState]
      rw [markFunctional_interfaceInitialized,
        markAvailable_interfaceInitialized]
      exact hflag

/-- Witness for C7 amended at a concrete initialized sensor. -/
theorem c7_state_change_event_amended_witness :
    (⟨0, true, 1, 1, true, true, 1, 1, true, true, []⟩ :
        SensorModel).interfaceInitialized = true ∧
    (updateState
        [(1, ("Health", [(1, ⟨"StateOne", "One"⟩),
                         (2, ⟨"StateTwo", "Two"⟩)]))] 1 "sen"
        ⟨0, true, 1, 1, true, true, 1, 1, true, true, []⟩
        2 1 true true).events =
      [] ++ amendedEmittedEvents
        [(1, ("Health", [(1, ⟨"StateOne", "One"⟩),
                         (2, ⟨"StateTwo", "Two"⟩)]))] 1 "sen" 1 1 2 1 :=
  ⟨rfl,
    (c7_state_change_event_amended
      [(1, ("Health", [(1, ⟨"StateOne", "One"⟩),
                       (2, ⟨"StateTwo", "Two"⟩)]))] 1 "sen"
      ⟨0, true, 1, 1, true, true, 1, 1, true, true, []⟩
      2 1 true true rfl).1⟩

/-!
## Entity auxiliary names

Embeds the shared-name-count loop of PDRManager::parseEntityAuxNamesPDR
from src/pdr_manager.cpp.  The raw-byte decode (header length check and
the getAuxName UTF-16 name extraction) is abstracted into the decoded
entity, the shared_name_count field and the optional decoded name; the
container _entityAuxNames is declared in pdr_manager.hpp (not under
src/) and is modelled as an association list with std map emplace
semantics: an emplace with an existing key inserts nothing.
-/

/-- A pldm_entity: onto this triple entity equality is defined. -/
structure Entity where
  entity_type : Nat
  entity_instance_num : Nat
  entity_container_id : Nat
  deriving DecidableEq, Repr

/-- The _entityAuxNames container. -/
abbrev EntityNameMap := List (Entity × String)

/-- Key membership in the map. -/
def containsKey (m : EntityNameMap) (k : Entity) : Bool :=
  m.any (fun p => p.1 = k)

/-- std map emplace: insert only when the key is absent. -/
def emplace (m : EntityNameMap) (k : Entity) (v : String) : EntityNameMap :=
  if containsKey m k then m else m ++ [(k, v)]

/-- The while loop of parseEntityAuxNamesPDR for shared_name_count > 0:
`count` starts at 0 and `iters` iterations are performed, each emplacing
under the unchanged key `e` the name with "_count" appended.  The source
iterates instanceNumber from entity_instance_num to
entity_instance_num + shared_name_count, i.e. shared_name_count + 1
times (faithful whenever entity_instance_num + shared_name_count fits
uint16, since instanceNumber is uint16). -/
def auxNameLoop (e : Entity) (n : String) :
    EntityNameMap → Nat → Nat → EntityNameMap
  | m, _, 0 => m
  | m, count, iters + 1 =>
    auxNameLoop e n (emplace m e (n ++ "_" ++ toString count)) (count + 1)
      iters

/-- Direct embedding of the map-filling portion of
PDRManager::parseEntityAuxNamesPDR: nothing on an undecodable name, a
single emplace when shared_name_count = 0, else the shared-name loop. -/
def parseEntityAuxNamesPDRCore (m : EntityNameMap) (e : Entity)
    (sharedNameCount : Nat) (name : Option String) : EntityNameMap :=
  match name with
  | none => m
  | some n =>
    if sharedNameCount = 0 then emplace m e n
    else auxNameLoop e n m 0 (sharedNameCount + 1)

/-- Once the key is present, every further loop iteration is a no-op. -/
theorem auxNameLoop_of_containsKey (e : Entity) (n : String)
    (m : EntityNameMap) (hk : containsKey m e = true) :
    ∀ iters count, auxNameLoop e n m count iters = m := by
  intro iters
  induction iters with
  | zero => intro count; rfl
  | succ k ih =>
    intro count
    unfold auxNameLoop emplace
    rw [hk]
    exact ih (count + 1)

/-- Appending a pair with key k makes the key present. -/
theorem containsKey_append_self (m : EntityNameMap) (k : Entity)
    (v : String) : containsKey (m ++ [(k, v)]) k = true := by
  unfold containsKey
  simp [List.any_append]

/-- C10: with shared_name_count >= 1 and a decodable name, the loop adds
at most one entry: when the entity key is fresh exactly the single pair
(starting-instance entity, name with "_0" appended) is added, and when
the key already exists nothing is added; no entry is created for any
other instance in the range. -/
theorem c10_shared_aux_names_single_entry (m : EntityNameMap) (e : Entity)
    (shared : Nat) (n : String) (h : 1 ≤ shared) :
    parseEntityAuxNamesPDRCore m e shared (some n) =
      if containsKey m e then m else m ++ [(e, n ++ "_0")] := by
  obtain ⟨k, rfl⟩ : ∃ k, shared = k + 1 := ⟨shared - 1, by omega⟩
  show (if k + 1 = 0 then emplace m e n
    else auxNameLoop e n m 0 (k + 1 + 1)) = _
  rw [if_neg (by omega)]
  show auxNameLoop e n (emplace m e (n ++ "_" ++ toString 0)) 1 (k + 1) = _
  by_cases hk : containsKey m e = true
  · rw [if_pos hk]
    unfold emplace
    rw [hk, if_pos rfl]
    rw [auxNameLoop_of_containsKey e n m hk]
  · rw [Bool.not_eq_true] at hk
    rw [hk]
    simp only [Bool.false_eq_true, if_false]
    unfold emplace
    rw [hk]
    simp only [Bool.false_eq_true, if_false]
    rw [auxNameLoop_of_containsKey e n _ (containsKey_append_self m e _)]
    have h0 : (toString 0 : String) = "0" := rfl
    rw [h0]
    have h1 : n ++ "_" ++ "0" = n ++ "_0" := by
      rw [String.append_assoc]
      rfl
    rw [h1]

/-- Witness for C10: shared_name_count = 2 on an empty map adds exactly
the single entry for the starting instance with "_0" appended. -/
theorem c10_shared_aux_names_single_entry_witness :
    1 ≤ 2 ∧
    parseEntityAuxNamesPDRCore [] ⟨7, 100, 3⟩ 2 (some "Slot") =
      if containsKey [] ⟨7, 100, 3⟩ then [] else [(⟨7, 100, 3⟩, "Slot_0")] :=
  ⟨by decide, c10_shared_aux_names_single_entry [] ⟨7, 100, 3⟩ 2 "Slot"
    (by decide)⟩

/-!
## PDR retrieval

Embeds handleGetPDRResp, getDevicePDRRecord and getDevicePDRRepo from
src/pdr_manager.cpp.  The GetPDR responses of the device are an oracle:
for each requested record handle a list of per-attempt outcomes, where
`none` models a failed sendReceivePldmMessage and a fragment carries the
decoded response fields (decodeOk models validatePLDMRespDecode).  The
recordChangeNumber captured on a START fragment only feeds the encoding
of the follow-up requests, which the oracle abstraction subsumes.
-/

/-- One round of the CRC-8 bit loop: shift left, conditionally xor the
polynomial 0x07. -/
def crc8Bits : Nat → Nat → Nat
  | c, 0 => c
  | c, k + 1 =>
    crc8Bits (if 128 ≤ c % 256 then (c % 256) * 2 % 256 ^^^ 7
              else (c % 256) * 2 % 256) k

/-- Fold one byte into the CRC. -/
def crc8Byte (c b : Nat) : Nat := crc8Bits ((c ^^^ b) % 256) 8

/-- The 8-bit CRC used on assembled PDR records.  Modelled from the
spec: DSP0240 CRC-8 with polynomial 0x07 and initial value 0 (the crc8
routine lives in libpldm, not under src/). -/
def crc8 (data : List Nat) : Nat := data.foldl crc8Byte 0

/-- One decoded GetPDR response as consumed by handleGetPDRResp. -/
structure PDRFrag where
  decodeOk : Bool
  nextRecordHandle : Nat
  nextDataTransferHandle : Nat
  transferFlag : Nat
  recordData : List Nat
  transferCRC : Nat
  deriving DecidableEq, Repr

/-- The record_handle field of an assembled record: little-endian
32-bit at offset 0 of pldm_pdr_hdr. -/
def recordHandleOf (record : List Nat) : Nat :=
  record.getD 0 0 + 256 * record.getD 1 0 + 65536 * record.getD 2 0 +
    16777216 * record.getD 3 0

/-- The multipart loop of getDevicePDRRecord combined with
handleGetPDRResp: per iteration the fragment is decoded (failure
discards the record), its bytes are appended, an END fragment must carry
the CRC-8 of the assembled bytes, and the per-record caps apply — the
assembled size must not exceed largest_record_size and the
multipartTransferLimit (100, decremented only when the size check
passes) must not reach zero, both checked even on the final fragment.
`none` models the source's false return with the record cleared. -/
def getRecordLoop (largest : Nat) :
    List (Option PDRFrag) → List Nat → Nat → Option (List Nat × Nat)
  | [], _, _ => none
  | none :: _, _, _ => none
  | some f :: rest, assembled, limit =>
    if f.decodeOk = false then none
    else
      let assembled1 := assembled ++ f.recordData
      if f.transferFlag = PLDM_END ∧ crc8 assembled1 ≠ f.transferCRC then
        none
      else if largest < assembled1.length then none
      else if limit - 1 = 0 then none
      else if f.transferFlag = PLDM_END ∨
          f.transferFlag = PLDM_START_AND_END then
        some (assembled1, f.nextRecordHandle)
      else getRecordLoop largest rest assembled1 (limit - 1)

/-- Direct embedding of getDevicePDRRecord: the multipart loop starting
from an empty record with multipartTransferLimit = 100. -/
def getDevicePDRRecord (largest : Nat) (frags : List (Option PDRFrag)) :
    Option (List Nat × Nat) :=
  getRecordLoop largest frags [] 100

/-- unordered_map emplace for the device PDR map: insert only when the
record handle key is absent. -/
def emplaceRepo (repo : List (Nat × List Nat)) (k : Nat) (v : List Nat) :
    List (Nat × List Nat) :=
  if repo.any (fun p => p.1 = k) then repo else repo ++ [(k, v)]

/-- Direct embedding of getDevicePDRRepo: the do-while scan over record
handles starting at 0, bounded by the expected record count.  A failed
record fetch returns false immediately; a fetched non-empty record is
emplaced under the handle of its own header; the loop continues while
the next record handle is non-zero and the decremented count is
non-zero.  The count = 0 case cannot be reached from constructPDRRepo,
which rejects a zero record_count.  Returns the success flag, the
accumulated device PDR map and the list of requested record handles. -/
def getDevicePDRRepo (oracle : Nat → List (Option PDRFrag)) (largest : Nat) :
    Nat → Nat → List (Nat × List Nat) → List Nat →
    Bool × List (Nat × List Nat) × List Nat
  | count, handle, repo, attempted =>
    match getDevicePDRRecord largest (oracle handle) with
    | none => (false, repo, attempted ++ [handle])
    | some (record, nrh) =>
      let repo1 := if record.isEmpty then repo
        else emplaceRepo repo (recordHandleOf record) record
      match count with
      | 0 => (true, repo1, attempted ++ [handle])
      | c + 1 =>
        if nrh ≠ 0 ∧ c ≠ 0 then
          getDevicePDRRepo oracle largest c nrh repo1 (attempted ++ [handle])
        else (true, repo1, attempted ++ [handle])

/-- GetPDR oracle of the C1 counterexample: record handle 0 is served in
two fragments, a START fragment of 8 bytes and an END fragment of
8 bytes whose transferCRC 0 differs from the CRC-8 of the assembled
bytes (135); the END fragment announces next record handle 2, which is
served as a valid single-fragment record. -/
def c1Oracle : Nat → List (Option PDRFrag) := fun h =>
  if h = 0 then
    [some ⟨true, 2, 1, PLDM_START, [1, 0, 0, 0, 1, 1, 0, 0], 0⟩,
     some ⟨true, 2, 0, PLDM_END, [5, 6, 7, 8, 9, 10, 11, 12], 0⟩]
  else
    [some ⟨true, 0, 0, PLDM_START_AND_END, [2, 0, 0, 0, 1, 1, 0, 0], 0⟩]

set_option maxRecDepth 8192 in
/-- C1 counterexample: with the c1Oracle (bad CRC on the END fragment of
the record at handle 0, record count 2), the record is indeed not
inserted, but the repository scan does not continue to the announced
next record handle 2: getDevicePDRRepo aborts with false after having
requested only handle 0. -/
theorem c1_claim_counterexample :
    getDevicePDRRepo c1Oracle 100 2 0 [] [] = (false, [], [0]) ∧
    (2 : Nat) ∉ ([0] : List Nat) := by
  constructor
  · rfl
  · decide

/-- C1 amended: when the END fragment of a multi-part GetPDR retrieval
carries a transferCRC different from the CRC-8 of the assembled bytes,
the record fetch fails, the assembled record is not inserted into the
device PDR map, and the scan attempt aborts immediately —
getDevicePDRRepo returns false right after the failing handle, without
requesting any further record handle (the caller constructPDRRepo then
retries the entire repository fetch, up to 3 tries). -/
theorem c1_bad_crc_aborts_scan (largest count : Nat)
    (oracle : Nat → List (Option PDRFrag)) (d1 d2 : List Nat)
    (n1 n2 t1 t2 cr1 cr2 : Nat) (repo : List (Nat × List Nat))
    (att : List Nat)
    (hor : oracle 0 = [some ⟨true, n1, t1, PLDM_START, d1, cr1⟩,
                       some ⟨true, n2, t2, PLDM_END, d2, cr2⟩])
    (hsz : d1.length ≤ largest)
    (hcrc : crc8 (d1 ++ d2) ≠ cr2) :
    getDevicePDRRecord largest (oracle 0) = none ∧
    getDevicePDRRepo oracle largest count 0 repo att =
      (false, repo, att ++ [0]) := by
  have hfetch : getDevicePDRRecord largest (oracle 0) = none := by
    rw [hor]
    unfold getDevicePDRRecord getRecordLoop
    simp only [List.nil_append]
    rw [if_neg (by simp)]
    rw [if_neg (by simp [PLDM_START, PLDM_END])]
    rw [if_neg (by simp [Nat.not_lt.mpr hsz])]
    rw [if_neg (by decide)]
    rw [if_neg (by simp [PLDM_START, PLDM_END, PLDM_START_AND_END])]
    unfold getRecordLoop
    rw [if_neg (by simp)]
    rw [if_pos ⟨rfl, hcrc⟩]
  refine ⟨hfetch, ?_⟩
  unfold getDevicePDRRepo
  rw [hfetch]

set_option maxRecDepth 8192 in
/-- Witness for C1 amended at the concrete c1Oracle input. -/
theorem c1_bad_crc_aborts_scan_witness :
    c1Oracle 0 = [some ⟨true, 2, 1, PLDM_START, [1, 0, 0, 0, 1, 1, 0, 0], 0⟩,
                  some ⟨true, 2, 0, PLDM_END, [5, 6, 7, 8, 9, 10, 11, 12], 0⟩] ∧
    getDevicePDRRepo c1Oracle 100 2 0 [] [] = (false, [], [] ++ [0]) :=
  ⟨rfl,
    (c1_bad_crc_aborts_scan 100 2 c1Oracle [1, 0, 0, 0, 1, 1, 0, 0]
      [5, 6, 7, 8, 9, 10, 11, 12] 2 2 1 0 0 0 [] [] rfl (by decide)
      (by decide)).2⟩

/-!
## Entity association tree

Embeds getEntityAssociation, getContainedNode, insertToAssociationTree,
extractRootNode and createEntityAssociationTree from
src/pdr_manager.cpp.  A node owns its contained entities
(EntityNode::containedEntities); an association PDR contributes a
parent entity and a list of leaf child entities (getEntityAssociation
builds childless nodes for the contained entities).  The source's BFS
while-loops are embedded with an explicit iteration budget equal to the
total node count of the queue, which is exactly the number of
iterations the loop can perform (each iteration dequeues one node and
enqueues only its children). -/

/-- An EntityNode of the association tree. -/
inductive EntityNode where
  | node : Entity → List EntityNode → EntityNode
  deriving Repr

/-- The containerEntity of a node. -/
def EntityNode.ident : EntityNode → Entity
  | .node e _ => e

/-- The containedEntities of a node. -/
def EntityNode.children : EntityNode → List EntityNode
  | .node _ cs => cs

mutual

/-- Total node count of a tree. -/
def nodeSize : EntityNode → Nat
  | .node _ cs => 1 + nodesSize cs

/-- Total node count of a forest. -/
def nodesSize : List EntityNode → Nat
  | [] => 0
  | n :: ns => nodeSize n + nodesSize ns

end

mutual

/-- All entity identities of a tree, root first, children in order. -/
def identsOf : EntityNode → List Entity
  | .node e cs => e :: identsOfList cs

/-- All entity identities of a forest. -/
def identsOfList : List EntityNode → List Entity
  | [] => []
  | n :: ns => identsOf n ++ identsOfList ns

end

/-- The BFS queue loop of getContainedNode: dequeue, compare the
containerEntity triple, enqueue the children.  One fuel unit per
iteration. -/
def bfsFindAux (target : Entity) : Nat → List EntityNode → Option EntityNode
  | 0, _ => none
  | _ + 1, [] => none
  | fuel + 1, n :: rest =>
    if n.ident = target then some n
    else bfsFindAux target fuel (rest ++ n.children)

/-- Direct embedding of getContainedNode: BFS from rootNode for a node
whose entity triple matches the target. -/
def getContainedNode (root : EntityNode) (target : Entity) :
    Option EntityNode :=
  bfsFindAux target (nodesSize [root]) [root]

/-- Append one contained entity to a node. -/
def addChild : EntityNode → EntityNode → EntityNode
  | .node e cs, c => .node e (cs ++ [c])

/-- Direct embedding of insertToAssociationTree: std copy_if with a
back_insert_iterator into parentNode->containedEntities, so each child
is checked against the parent subtree as already extended by the
previously accepted children; a child found by the BFS is discarded as
a cyclic entity association. -/
def insertToAssociationTree (parentNode : EntityNode) :
    List Entity → EntityNode
  | [] => parentNode
  | c :: cs =>
    if (getContainedNode parentNode c).isNone then
      insertToAssociationTree (addChild parentNode (.node c [])) cs
    else insertToAssociationTree parentNode cs

/-- One Entity Association PDR as parsed by getEntityAssociation: the
container entity and the contained entities. -/
structure EntityAssociation where
  parent : Entity
  childEntities : List Entity
  deriving DecidableEq, Repr

/-- Direct embedding of extractRootNode's remove_if pass: associations
whose parent container id equals the terminus container id are removed
in order; the first creates the root node, and each match inserts its
children through insertToAssociationTree. -/
def extractRootNodeAux (containerID : Nat) :
    List EntityAssociation → Option EntityNode →
    Option EntityNode × List EntityAssociation
  | [], root => (root, [])
  | a :: rest, root =>
    if a.parent.entity_container_id = containerID then
      let root1 := match root with
        | none => EntityNode.node a.parent []
        | some r => r
      extractRootNodeAux containerID rest
        (some (insertToAssociationTree root1 a.childEntities))
    else
      let res := extractRootNodeAux containerID rest root
      (res.1, a :: res.2)

/-- The BFS of getContainedNode returning the position (child-index
path) of the first match instead of the node, so that the in-place
mutation through the returned pointer can be replayed on the purely
functional tree. -/
def bfsFindPathAux (target : Entity) :
    Nat → List (List Nat × EntityNode) → Option (List Nat)
  | 0, _ => none
  | _ + 1, [] => none
  | fuel + 1, (p, n) :: rest =>
    if n.ident = target then some p
    else bfsFindPathAux target fuel
      (rest ++ n.children.enum.map (fun q => (p ++ [q.1], q.2)))

/-- Path-returning getContainedNode from the root. -/
def bfsFindPath (root : EntityNode) (target : Entity) : Option (List Nat) :=
  bfsFindPathAux target (nodesSize [root]) [([], root)]

/-- Replace the i-th tree of a forest. -/
def modifyChildAt : List EntityNode → Nat → (EntityNode → EntityNode) →
    List EntityNode
  | [], _, _ => []
  | x :: xs, 0, f => f x :: xs
  | x :: xs, i + 1, f => x :: modifyChildAt xs i f

/-- Apply f to the node at the given child-index path. -/
def updateAtPath (f : EntityNode → EntityNode) :
    EntityNode → List Nat → EntityNode
  | t, [] => f t
  | .node e cs, i :: rest =>
    .node e (modifyChildAt cs i (fun c => updateAtPath f c rest))

/-- One remove_if pass of the createEntityAssociationTree while loop:
for each remaining association in order, getContainedNode from the tree
root looks up the parent; on a match the association is inserted at the
matched node (the cycle check of insertToAssociationTree then runs on
that node's subtree) and removed, otherwise it is kept. -/
def assocPass : EntityNode → List EntityAssociation →
    EntityNode × List EntityAssociation
  | root, [] => (root, [])
  | root, a :: rest =>
    match bfsFindPath root a.parent with
    | some p =>
      assocPass
        (updateAtPath (fun n => insertToAssociationTree n a.childEntities)
          root p) rest
    | none =>
      let res := assocPass root rest
      (res.1, a :: res.2)

/-- The while loop of createEntityAssociationTree: repeat passes until
the association list is empty or a pass removes nothing (invalid PDRs).
The fuel equals the list length, which bounds the number of
productive passes. -/
def assocLoop : Nat → EntityNode → List EntityAssociation → EntityNode
  | 0, root, _ => root
  | fuel + 1, root, assocs =>
    if assocs.isEmpty then root
    else
      let res := assocPass root assocs
      if res.2.length < assocs.length then assocLoop fuel res.1 res.2
      else res.1

/-- Direct embedding of createEntityAssociationTree (with
extractRootNode): none when no association matches the terminus
container id. -/
def createEntityAssociationTree (assocs : List EntityAssociation)
    (containerID : Nat) : Option EntityNode :=
  match extractRootNodeAux containerID assocs none with
  | (none, _) => none
  | (some root, remaining) => some (assocLoop remaining.length root remaining)

/-- C5 counterexample: two association PDRs — root (1,1,0) containing
(2,1,1), and (2,1,1) containing (1,1,0).  When the second association is
inserted under the matched parent (2,1,1), a BFS from the tree root
would find the child identity (1,1,0) at the root, yet the child is
appended, because the code's cycle check searches only the subtree of
the matched parent.  The resulting tree carries the identity (1,1,0)
twice, so a BFS from the root does not reach every entity identity
exactly once. -/
theorem c5_claim_counterexample :
    createEntityAssociationTree
        [⟨⟨1, 1, 0⟩, [⟨2, 1, 1⟩]⟩, ⟨⟨2, 1, 1⟩, [⟨1, 1, 0⟩]⟩] 0 =
      some (.node ⟨1, 1, 0⟩ [.node ⟨2, 1, 1⟩ [.node ⟨1, 1, 0⟩ []]]) ∧
    (identsOf
        (.node ⟨1, 1, 0⟩ [.node ⟨2, 1, 1⟩ [.node ⟨1, 1, 0⟩ []]])).count
      ⟨1, 1, 0⟩ = 2 := by
  constructor
  · rfl
  · decide

/-- Every tree has at least one node. -/
theorem nodeSize_pos (n : EntityNode) : 1 ≤ nodeSize n := by
  cases n with
  | node e cs => simp [nodeSize]

/-- Node count is additive over forest concatenation. -/
theorem nodesSize_append (a b : List EntityNode) :
    nodesSize (a ++ b) = nodesSize a + nodesSize b := by
  induction a with
  | nil => simp [nodesSize]
  | cons n ns ih => simp [nodesSize, ih]; omega

/-- A forest with zero nodes is empty. -/
theorem nodesSize_eq_zero (q : List EntityNode) (h : nodesSize q = 0) :
    q = [] := by
  cases q with
  | nil => rfl
  | cons n ns =>
    exfalso
    have := nodeSize_pos n
    simp [nodesSize] at h
    omega

/-- Membership in the identities of a forest. -/
theorem mem_identsOfList (t : Entity) (cs : List EntityNode) :
    t ∈ identsOfList cs ↔ ∃ c ∈ cs, t ∈ identsOf c := by
  induction cs with
  | nil => simp [identsOfList]
  | cons n ns ih => simp [identsOfList, ih]

/-- The BFS of getContainedNode, given fuel at least the node count of
the queue, misses the target exactly when the target identity occurs
nowhere in the queued subtrees. -/
theorem bfsFindAux_eq_none_iff (t : Entity) :
    ∀ fuel q, nodesSize q ≤ fuel →
      (bfsFindAux t fuel q = none ↔ ∀ n ∈ q, t ∉ identsOf n) := by
  intro fuel
  induction fuel with
  | zero =>
    intro q hq
    have hnil : q = [] := nodesSize_eq_zero q (by omega)
    subst hnil
    simp [bfsFindAux]
  | succ k ih =>
    intro q hq
    cases q with
    | nil => simp [bfsFindAux]
    | cons n rest =>
      cases n with
      | node e cs =>
        by_cases h : e = t
        · subst h
          simp [bfsFindAux, EntityNode.ident, identsOf]
        · have hident : (EntityNode.node e cs).ident = e := rfl
          have hstep : bfsFindAux t (k + 1) (EntityNode.node e cs :: rest) =
              bfsFindAux t k (rest ++ cs) := by
            simp [bfsFindAux, hident, h, EntityNode.children]
          rw [hstep]
          have hsz : nodesSize (rest ++ cs) ≤ k := by
            rw [nodesSize_append]
            simp [nodesSize, nodeSize] at hq
            omega
          rw [ih (rest ++ cs) hsz]
          have hid : identsOf (EntityNode.node e cs) =
              e :: identsOfList cs := rfl
          constructor
          · intro hall n hn
            rcases List.mem_cons.mp hn with rfl | hn
            · intro hmem
              rw [hid] at hmem
              rcases List.mem_cons.mp hmem with h1 | h1
              · exact h h1.symm
              · rcases (mem_identsOfList t cs).mp h1 with ⟨c, hcmem, hcin⟩
                exact hall c (List.mem_append.mpr (Or.inr hcmem)) hcin
            · exact hall n (List.mem_append.mpr (Or.inl hn))
          · intro hall n hn
            rcases List.mem_append.mp hn with h1 | h1
            · exact hall n (List.mem_cons.mpr (Or.inr h1))
            · intro hmem
              have hhead := hall (EntityNode.node e cs)
                (List.mem_cons_self _ _)
              apply hhead
              rw [hid]
              exact List.mem_cons.mpr
                (Or.inr ((mem_identsOfList t cs).mpr ⟨n, h1, hmem⟩))

/-- The cycle check of insertToAssociationTree succeeds exactly when the
child identity occurs nowhere in the subtree of the matched parent
node. -/
theorem getContainedNode_isNone_iff (root : EntityNode) (t : Entity) :
    (getContainedNode root t).isNone = true ↔ t ∉ identsOf root := by
  rw [Option.isNone_iff_eq_none]
  unfold getContainedNode
  rw [bfsFindAux_eq_none_iff t (nodesSize [root]) [root] (Nat.le_refl _)]
  simp

/-- Identity list is additive over forest concatenation. -/
theorem identsOfList_append (a b : List EntityNode) :
    identsOfList (a ++ b) = identsOfList a ++ identsOfList b := by
  induction a with
  | nil => simp [identsOfList]
  | cons n ns ih => simp [identsOfList, ih]

/-- Appending a leaf child appends its identity. -/
theorem identsOf_addChild (p : EntityNode) (c : Entity) :
    identsOf (addChild p (.node c [])) = identsOf p ++ [c] := by
  cases p with
  | node e cs =>
    simp [addChild, identsOf, identsOfList_append, identsOfList]

/-- insertToAssociationTree preserves duplicate-freedom of the subtree
identities of the node it extends. -/
theorem insertToAssociationTree_nodup : ∀ (cs : List Entity)
    (p : EntityNode), (identsOf p).Nodup →
    (identsOf (insertToAssociationTree p cs)).Nodup := by
  intro cs
  induction cs with
  | nil => intro p h; exact h
  | cons c cs ih =>
    intro p h
    by_cases hc : (getContainedNode p c).isNone = true
    · have hstep : insertToAssociationTree p (c :: cs) =
          insertToAssociationTree (addChild p (.node c [])) cs := by
        simp [insertToAssociationTree, hc]
      rw [hstep]
      apply ih
      rw [identsOf_addChild]
      have hnot : c ∉ identsOf p := (getContainedNode_isNone_iff p c).mp hc
      simp [List.nodup_append, h, hnot]
    · have hstep : insertToAssociationTree p (c :: cs) =
          insertToAssociationTree p cs := by
        simp only [insertToAssociationTree]
        rw [if_neg hc]
      rw [hstep]
      exact ih p h

/-- C5 amended: the cycle check before appending a child C under the
matched parent node P is a BFS over P's subtree only — C is discarded
exactly when its identity already occurs somewhere in P's subtree — and
consequently inserting an association keeps the subtree identities of P
duplicate-free when they were duplicate-free before; identities
elsewhere in the tree are not consulted, so a BFS from the root need
not reach every identity exactly once. -/
theorem c5_cycle_check_subtree_local (parent : EntityNode)
    (cs : List Entity) (c : Entity) (h : (identsOf parent).Nodup) :
    ((getContainedNode parent c).isNone = true ↔ c ∉ identsOf parent) ∧
    (identsOf (insertToAssociationTree parent cs)).Nodup :=
  ⟨getContainedNode_isNone_iff parent c,
    insertToAssociationTree_nodup cs parent h⟩

/-- Witness for C5 amended at a concrete single-node parent. -/
theorem c5_cycle_check_subtree_local_witness :
    (identsOf (.node ⟨1, 1, 0⟩ [])).Nodup ∧
    (((getContainedNode (.node ⟨1, 1, 0⟩ []) ⟨1, 1, 0⟩).isNone = true ↔
        (⟨1, 1, 0⟩ : Entity) ∉ identsOf (.node ⟨1, 1, 0⟩ [])) ∧
      (identsOf (insertToAssociationTree (.node ⟨1, 1, 0⟩ [])
        [⟨2, 1, 1⟩])).Nodup) :=
  ⟨by decide,
    c5_cycle_check_subtree_local (.node ⟨1, 1, 0⟩ []) [⟨2, 1, 1⟩] ⟨1, 1, 0⟩
      (by decide)⟩

end Pldmd
